import Mathlib

/-!
Shallow embedding of the girls-trip-app flight-route query logic.

The repository has two Python modules with the same core logic over two
dataset formats:

  * src/src/components/read_data.py — structured per-airport JSON data: a
    dictionary mapping airport codes to airport records, each record holding
    a list of route objects with a destination code and an optional duration
    in minutes, plus optional display metadata.
  * src/flights.py — flat tabular routes data, fetched over HTTP.

Python dictionaries are modelled as association lists; dictionary `get`
is modelled by first-match lookup; Python truthiness of a dictionary
(`if not airport_info`) is modelled by a `truthy` predicate on the record
(a dictionary is falsy exactly when it is empty), and truthiness of a
string (`if dest_iata`) by a nonemptiness test.  Fetch outcomes and the
JSON/CSV library parsers are passed in as explicit values, since they are
the only effectful inputs.
-/

/-- A route object from the structured dataset.  `iata` models
`route.get('iata')` (none when the key is missing) and `min` models
`route.get('min')` (the optional duration in minutes). -/
structure Route where
  iata : Option String
  min : Option Int

deriving instance DecidableEq for Route

/-- An airport record (one value of the airport-data dictionary).  The four
fields the code reads are modelled as optional values (none = key missing);
`hasOtherKeys` records whether the underlying dictionary holds any further
keys, which only matters for Python truthiness of the record. -/
structure AirportInfo where
  routes : Option (List Route)
  iata : Option String
  name : Option String
  display_name : Option String
  hasOtherKeys : Bool

deriving instance DecidableEq for AirportInfo

/-- The airport-data dictionary: an association list from airport code to
record, in insertion order. -/
abbrev AirportData := List (String × AirportInfo)

/-- Python truthiness of an airport record: a dictionary is truthy iff it is
nonempty, i.e. iff it has at least one key. -/
def AirportInfo.truthy (a : AirportInfo) : Bool :=
  a.routes.isSome || a.iata.isSome || a.name.isSome || a.display_name.isSome || a.hasOtherKeys

/-- Dictionary lookup, `airport_data.get(code)`. -/
def dictGet (d : AirportData) (code : String) : Option AirportInfo :=
  match d with
  | [] => none
  | (k, v) :: rest => if k = code then some v else dictGet rest code

namespace ReadData

/-- The collection loop of `get_airport_destinations`: iterate the routes,
adding each route's destination code to the set, skipping a route whose
`iata` key is missing or whose value is falsy (the empty string). -/
def collectDestinations (routes : List Route) (acc : Finset String) : Finset String :=
  match routes with
  | [] => acc
  | r :: rest =>
      collectDestinations rest
        (match r.iata with
         | some s => if s = "" then acc else insert s acc
         | none => acc)

/-- read_data.py `get_airport_destinations(airport_data, airport_code)`:
empty set when the code is absent or its record is falsy, otherwise the
destination codes collected from the record's routes (missing `routes` key
defaults to the empty list). -/
def get_airport_destinations (d : AirportData) (code : String) : Finset String :=
  match dictGet d code with
  | none => ∅
  | some info =>
      if info.truthy then collectDestinations (info.routes.getD []) ∅ else ∅

/-- read_data.py `find_common_destinations`: intersection of the two
destination sets. -/
def find_common_destinations (d : AirportData) (a1 a2 : String) : Finset String :=
  get_airport_destinations d a1 ∩ get_airport_destinations d a2

/-- The inner loop of `get_flight_times_df`: scan the routes in stored order
and on the first route whose `iata` equals the destination, return that
route's `min` value (itself possibly absent) and stop. -/
def firstMatchTime (routes : List Route) (dest : String) : Option Int :=
  match routes with
  | [] => none
  | r :: rest => if r.iata = some dest then r.min else firstMatchTime rest dest

/-- Duration resolution of `get_flight_times_df` for one origin and one
destination: absent when the origin's record is missing or falsy, else the
first-match duration over its routes. -/
def resolveTime (d : AirportData) (code dest : String) : Option Int :=
  match dictGet d code with
  | none => none
  | some info =>
      if info.truthy then firstMatchTime (info.routes.getD []) dest else none

/-- One row of the flight-times dataframe: destination code and the two
optional durations. -/
structure FlightRow where
  iata : String
  time1 : Option Int
  time2 : Option Int

/-- read_data.py `get_flight_times_df`: one row per destination, in the
iteration order of the common set (modelled as a list). -/
def get_flight_times_df (d : AirportData) (a1 a2 : String) (common : List String) :
    List FlightRow :=
  common.map (fun dest => ⟨dest, resolveTime d a1 dest, resolveTime d a2 dest⟩)

/-- One row of the metadata dataframe built by `extract_airport_data`. -/
structure MetaRow where
  iata : String
  name : String
  display_name : String

/-- read_data.py `extract_airport_data`: keep one row per dictionary entry
whose `iata`, `name` and `display_name` are all present and truthy
(nonempty); other entries are skipped. -/
def extract_airport_data (d : AirportData) : List MetaRow :=
  d.filterMap (fun p =>
    match p.2.iata, p.2.name, p.2.display_name with
    | some i, some n, some dn =>
        if i ≠ "" ∧ n ≠ "" ∧ dn ≠ "" then some ⟨i, n, dn⟩ else none
    | _, _, _ => none)

/-- One row of the merged dataframe `common_destinations_df`, after the
`time_diff` column is added. -/
structure MergedRow where
  iata : String
  time1 : Option Int
  time2 : Option Int
  name : Option String
  display_name : Option String
  time_diff : Option Int

/-- The row semantics of the pandas left merge on `iata` when both frames
carry an `iata` column: each flight row is joined against every metadata
row with the same `iata`; when no metadata row matches, the flight row is
kept once with absent display fields. -/
def mergeRows (flights : List FlightRow) (metaRows : List MetaRow) : List MergedRow :=
  flights.flatMap (fun fr =>
    match metaRows.filter (fun m => m.iata == fr.iata) with
    | [] => [⟨fr.iata, fr.time1, fr.time2, none, none, none⟩]
    | ms => ms.map (fun m => ⟨fr.iata, fr.time1, fr.time2, some m.name, some m.display_name, none⟩))

/-- The pandas left merge `df_flights.merge(airport_df, how='left',
on='iata')`: a dataframe built from an empty list of records has no
columns at all, so when either input frame is empty the merge raises
KeyError for the missing `iata` column and the query dies there (the app
body has no handler); this error path is modelled as `none`.  With both
frames nonempty the merge returns the joined rows. -/
def mergeLeft (flights : List FlightRow) (metaRows : List MetaRow) : Option (List MergedRow) :=
  match flights, metaRows with
  | [], _ => none
  | _, [] => none
  | _ :: _, _ :: _ => some (mergeRows flights metaRows)

/-- The pandas column arithmetic `abs(df[a1] - df[a2])` with NaN
propagation: present with the absolute difference exactly when both
durations are present. -/
def timeDiff (t1 t2 : Option Int) : Option Int :=
  match t1, t2 with
  | some x, some y => some |x - y|
  | _, _ => none

/-- Adding the `time_diff` column to the merged dataframe. -/
def addTimeDiff (rows : List MergedRow) : List MergedRow :=
  rows.map (fun r => ⟨r.iata, r.time1, r.time2, r.name, r.display_name, timeDiff r.time1 r.time2⟩)

/-- The `common_destinations_df` pipeline of the app body: flight-times
join, left merge with the metadata, then the `time_diff` column; `none`
when the merge step raises. -/
def common_destinations_df (d : AirportData) (a1 a2 : String) (common : List String) :
    Option (List MergedRow) :=
  (mergeLeft (get_flight_times_df d a1 a2 common) (extract_airport_data d)).map addTimeDiff

/-- An HTTP response: status code and body text. -/
structure HttpResponse where
  status : Nat
  body : String

/-- Outcome of `requests.get`: either a transport-level error
(RequestException: connection failure, timeout, ...) or a response. -/
inductive HttpResult where
  | error (msg : String)
  | ok (resp : HttpResponse)

/-- Result of the fetch boundary: the loaded data, or a failure value
carrying the human-readable cause that the code reports (the code prints
the cause and returns None). -/
inductive FetchResult (α : Type) where
  | success (val : α)
  | failure (cause : String)

/-- requests `Response.raise_for_status`: raises HTTPError (a
RequestException) exactly for status codes in 400..599. -/
def raise_for_status (resp : HttpResponse) : Option String :=
  if 400 ≤ resp.status ∧ resp.status < 600 then
    some ("HTTP Error " ++ toString resp.status)
  else none

/-- read_data.py `read_airport_data_from_url`, over an explicit fetch
outcome and an explicit JSON parser (the `response.json()` library call):
transport errors and `raise_for_status` errors are caught as fetch
failures, parse errors as invalid-JSON failures, and otherwise the parsed
data is returned. -/
def read_airport_data_from_url (parseJson : String → Except String AirportData)
    (result : HttpResult) : FetchResult AirportData :=
  match result with
  | .error e => .failure ("Error fetching data: " ++ e)
  | .ok resp =>
      match raise_for_status resp with
      | some e => .failure ("Error fetching data: " ++ e)
      | none =>
          match parseJson resp.body with
          | .error e => .failure ("Error: Invalid JSON format in the data: " ++ e)
          | .ok d => .success d

end ReadData

namespace Flights

/-- flights.py `find_common_destinations`, over the two retrieval results
(flights.py `get_airport_destinations` returns a set of codes or None when
its fetch fails): None when either retrieval failed, else the
intersection. -/
def find_common_destinations (destinations1 destinations2 : Option (Finset String)) :
    Option (Finset String) :=
  match destinations1, destinations2 with
  | some d1, some d2 => some (d1 ∩ d2)
  | _, _ => none

end Flights

/-! Helper lemmas about the embedded operations. -/

theorem mem_collectDestinations (routes : List Route) (acc : Finset String) (s : String) :
    s ∈ ReadData.collectDestinations routes acc ↔
      s ∈ acc ∨ ∃ r ∈ routes, r.iata = some s ∧ s ≠ "" := by
  induction routes generalizing acc with
  | nil => simp [ReadData.collectDestinations]
  | cons r rest ih =>
    rw [ReadData.collectDestinations, ih]
    cases h : r.iata with
    | none => simp [h]
    | some t =>
      by_cases ht : t = ""
      · subst ht
        simp only [h, if_pos rfl, List.mem_cons]
        constructor
        · rintro (hs | hR)
          · exact Or.inl hs
          · exact Or.inr ⟨hR.choose, Or.inr hR.choose_spec.1, hR.choose_spec.2⟩
        · rintro (hs | ⟨q, hq | hq, hqi, hqs⟩)
          · exact Or.inl hs
          · subst hq
            rw [h] at hqi
            cases hqi
            exact absurd rfl hqs
          · exact Or.inr ⟨q, hq, hqi, hqs⟩
      · simp only [h, if_neg ht, Finset.mem_insert, List.mem_cons]
        constructor
        · rintro ((rfl | hs) | hR)
          · exact Or.inr ⟨r, Or.inl rfl, h, ht⟩
          · exact Or.inl hs
          · exact Or.inr ⟨hR.choose, Or.inr hR.choose_spec.1, hR.choose_spec.2⟩
        · rintro (hs | ⟨q, hq | hq, hqi, hqs⟩)
          · exact Or.inl (Or.inr hs)
          · subst hq
            rw [h] at hqi
            cases hqi
            exact Or.inl (Or.inl rfl)
          · exact Or.inr ⟨q, hq, hqi, hqs⟩

theorem firstMatchTime_of_first (l1 l2 : List Route) (r : Route) (dest : String)
    (h1 : ∀ p ∈ l1, ¬ p.iata = some dest) (hr : r.iata = some dest) :
    ReadData.firstMatchTime (l1 ++ r :: l2) dest = r.min := by
  induction l1 with
  | nil => simp [ReadData.firstMatchTime, hr]
  | cons p rest ih =>
    have hp : ¬ p.iata = some dest := h1 p (List.mem_cons_self p rest)
    simp only [List.cons_append, ReadData.firstMatchTime, if_neg hp]
    exact ih (fun q hq => h1 q (List.mem_cons_of_mem p hq))

theorem firstMatchTime_of_no_match (routes : List Route) (dest : String)
    (h : ∀ p ∈ routes, ¬ p.iata = some dest) :
    ReadData.firstMatchTime routes dest = none := by
  induction routes with
  | nil => rfl
  | cons p rest ih =>
    have hp : ¬ p.iata = some dest := h p (List.mem_cons_self p rest)
    simp only [ReadData.firstMatchTime, if_neg hp]
    exact ih (fun q hq => h q (List.mem_cons_of_mem p hq))

theorem mem_mergeRows_of_no_meta (flights : List ReadData.FlightRow)
    (metaRows : List ReadData.MetaRow) (fr : ReadData.FlightRow) (h : fr ∈ flights)
    (hnone : metaRows.filter (fun m => m.iata == fr.iata) = []) :
    (⟨fr.iata, fr.time1, fr.time2, none, none, none⟩ : ReadData.MergedRow) ∈
      ReadData.mergeRows flights metaRows :=
  List.mem_flatMap.mpr ⟨fr, h, by simp [hnone]⟩

theorem mergeLeft_eq_some (flights : List ReadData.FlightRow)
    (metaRows : List ReadData.MetaRow) (hf : flights ≠ []) (hm : metaRows ≠ []) :
    ReadData.mergeLeft flights metaRows = some (ReadData.mergeRows flights metaRows) := by
  cases flights with
  | nil => exact absurd rfl hf
  | cons f fs =>
    cases metaRows with
    | nil => exact absurd rfl hm
    | cons m ms => rfl

theorem time_diff_of_mem_addTimeDiff (rows : List ReadData.MergedRow)
    (r : ReadData.MergedRow) (h : r ∈ ReadData.addTimeDiff rows) :
    r.time_diff = ReadData.timeDiff r.time1 r.time2 := by
  rcases List.mem_map.mp h with ⟨r0, _, rfl⟩
  rfl

theorem timeDiff_isSome (t1 t2 : Option Int) :
    (ReadData.timeDiff t1 t2).isSome = (t1.isSome && t2.isSome) := by
  cases t1 <;> cases t2 <;> rfl

theorem mem_addTimeDiff_of_mem (rows : List ReadData.MergedRow) (r : ReadData.MergedRow)
    (h : r ∈ rows) :
    (⟨r.iata, r.time1, r.time2, r.name, r.display_name,
        ReadData.timeDiff r.time1 r.time2⟩ : ReadData.MergedRow) ∈
      ReadData.addTimeDiff rows :=
  List.mem_map.mpr ⟨r, h, rfl⟩

/-! Concrete data used by the witnesses and the round-trip checks. -/

def ordRoute50 : Route := ⟨some ("ORD"), some 50⟩

def ordRoute60 : Route := ⟨some ("ORD"), some 60⟩

def seaOrdInfo : AirportInfo := ⟨some [ordRoute50, ordRoute60], none, none, none, false⟩

def seaOrdData : AirportData := [(("SEA"), seaOrdInfo)]

def seaRoutes : List Route := [⟨some ("BOS"), some 45⟩, ⟨some ("LAX"), some 120⟩]

def bosRoutes : List Route := [⟨some ("SEA"), some 45⟩, ⟨some ("LAX"), some 300⟩]

def syntheticData : AirportData :=
  [(("SEA"), ⟨some seaRoutes, some ("SEA"), some ("Seattle-Tacoma Intl"), some ("Seattle, US"), false⟩),
   (("BOS"), ⟨some bosRoutes, some ("BOS"), some ("Logan Intl"), some ("Boston, US"), false⟩)]

/-- A one-complete-metadata-entry extension of the ORD index: the metadata
table is nonempty, but no metadata row matches the destination ORD. -/
def seaOrdMeta : AirportData :=
  [(("SEA"), seaOrdInfo),
   (("AAA"), ⟨none, some ("AAA"), some ("Airport A"), some ("A City, A"), false⟩)]

/-- An index whose two airports share the destination ORD but whose records
carry no display metadata at all: the extracted metadata table is empty. -/
def bareIndex : AirportData :=
  [(("SEA"), ⟨some [⟨some ("ORD"), some 50⟩, ⟨some ("ORD"), some 60⟩], none, none, none, false⟩),
   (("BOS"), ⟨some [⟨some ("ORD"), some 200⟩], none, none, none, false⟩)]

deriving instance DecidableEq for ReadData.FlightRow
deriving instance DecidableEq for ReadData.MetaRow
deriving instance DecidableEq for ReadData.MergedRow

/-- A stand-in for the JSON library parser used at the fetch boundary: it
accepts exactly the empty JSON object and rejects everything else. -/
def parseEmptyObject : String → Except String AirportData :=
  fun s => if s = "\x7b\x7d" then Except.ok [] else Except.error ("Expecting value")

/-- An empty airport record: the dictionary value is the empty dictionary,
which is falsy in Python. -/
def emptyInfo : AirportInfo := ⟨none, none, none, none, false⟩

/-- A nonempty record with no `routes` key at all. -/
def noRoutesInfo : AirportInfo := ⟨none, none, some ("Nowhere Field"), none, false⟩

/-- A record whose routes have an empty-string destination code and a
missing destination code. -/
def emptyIataInfo : AirportInfo :=
  ⟨some [⟨some (""), some 10⟩, ⟨none, some 20⟩], none, none, none, false⟩

def malformedData : AirportData :=
  [(("EMP"), emptyInfo), (("NRT"), noRoutesInfo), (("EII"), emptyIataInfo)]

/-- A dictionary with one complete metadata entry and one entry missing
`name`. -/
def metaData2 : AirportData :=
  [(("AAA"), ⟨none, some ("AAA"), some ("Airport A"), some ("A City, A"), false⟩),
   (("BBB"), ⟨none, some ("BBB"), none, some ("B City, B"), false⟩)]

/-- C1: for every destination in the common set, the joiner resolves the
duration from each origin by scanning that origin's routes in stored order
and taking the `min` of the first route whose destination code matches,
independently for each origin: the produced row carries the first matching
route's duration for origin1 and origin2's independently resolved
duration. -/
theorem C1_first_match_wins (d : AirportData) (a1 a2 : String) (common : List String)
    (dest : String) (info : AirportInfo) (l1 l2 : List Route) (r : Route)
    (hdest : dest ∈ common) (hinfo : dictGet d a1 = some info) (htru : info.truthy = true)
    (hroutes : info.routes = some (l1 ++ r :: l2))
    (hl1 : ∀ p ∈ l1, ¬ p.iata = some dest) (hr : r.iata = some dest) :
    ∃ row ∈ ReadData.get_flight_times_df d a1 a2 common,
      row.iata = dest ∧ row.time1 = r.min ∧
      row.time2 = ReadData.resolveTime d a2 dest := by
  refine ⟨⟨dest, ReadData.resolveTime d a1 dest, ReadData.resolveTime d a2 dest⟩,
    List.mem_map.mpr ⟨dest, hdest, rfl⟩, rfl, ?_, rfl⟩
  have hres : ReadData.resolveTime d a1 dest =
      ReadData.firstMatchTime (l1 ++ r :: l2) dest := by
    simp [ReadData.resolveTime, hinfo, htru, hroutes]
  show ReadData.resolveTime d a1 dest = r.min
  rw [hres]
  exact firstMatchTime_of_first l1 l2 r dest hl1 hr

/-- C1 witness: SEA has two route entries to ORD with durations 50 and 60
in that order; the resolved duration in the joined row is 50. -/
theorem C1_witness :
    ∃ row ∈ ReadData.get_flight_times_df seaOrdData ("SEA") ("BOS") [("ORD")],
      row.iata = ("ORD") ∧ row.time1 = some 50 ∧
      row.time2 = ReadData.resolveTime seaOrdData ("BOS") ("ORD") :=
  C1_first_match_wins seaOrdData ("SEA") ("BOS") [("ORD")] ("ORD") seaOrdInfo
    [] [ordRoute60] ordRoute50 (by decide) (by decide) (by decide) (by decide)
    (by intro p hp; simp at hp) (by decide)

/-- C2: common-destination finding is pure set intersection (of the two
destination sets) and is symmetric in the two airport codes; the flights.py
variant over retrieval results is symmetric as well. -/
theorem C2_common_symmetric :
    (∀ (d : AirportData) (a b : String),
      ReadData.find_common_destinations d a b =
        ReadData.get_airport_destinations d a ∩ ReadData.get_airport_destinations d b ∧
      ReadData.find_common_destinations d a b = ReadData.find_common_destinations d b a) ∧
    (∀ (o1 o2 : Option (Finset String)),
      Flights.find_common_destinations o1 o2 = Flights.find_common_destinations o2 o1) := by
  constructor
  · intro d a b
    exact ⟨rfl, Finset.inter_comm _ _⟩
  · intro o1 o2
    cases o1 <;> cases o2 <;> simp [Flights.find_common_destinations, Finset.inter_comm]

/-- C3: a code absent from the index yields the empty set rather than a
failure, and for a present, truthy record the built set contains exactly
the destination codes of its routes, skipping routes lacking a (truthy)
destination code. -/
theorem C3_absent_code_empty_set (d : AirportData) (code : String) :
    (dictGet d code = none → ReadData.get_airport_destinations d code = ∅) ∧
    (∀ info, dictGet d code = some info → info.truthy = true →
      ∀ s, s ∈ ReadData.get_airport_destinations d code ↔
        ∃ r ∈ info.routes.getD [], r.iata = some s ∧ s ≠ "") := by
  constructor
  · intro h
    simp [ReadData.get_airport_destinations, h]
  · intro info hinfo htru s
    simp [ReadData.get_airport_destinations, hinfo, htru, mem_collectDestinations]

/-- C3 witness: JFK is absent from the one-airport index, so its set is
empty; membership of ORD in SEA's set is characterised by its routes. -/
theorem C3_witness :
    (ReadData.get_airport_destinations seaOrdData ("JFK") = ∅) ∧
    (("ORD") ∈ ReadData.get_airport_destinations seaOrdData ("SEA") ↔
      ∃ r ∈ seaOrdInfo.routes.getD [], r.iata = some ("ORD") ∧ ("ORD") ≠ "") :=
  ⟨(C3_absent_code_empty_set seaOrdData ("JFK")).1 (by decide),
   (C3_absent_code_empty_set seaOrdData ("SEA")).2 seaOrdInfo (by decide) (by decide) ("ORD")⟩

/-- C4: the join never raises on missing duration fields: every
destination of the common set still yields a joiner row carrying the
(possibly absent) resolved durations; an origin with no matching route
entry resolves to an absent duration; and whenever the pipeline reaches
the `time_diff` computation (the merge step succeeded), the absolute
duration difference is present exactly when both durations are present. -/
theorem C4_join_missing_durations (d : AirportData) (a1 a2 : String) (common : List String) :
    (∀ dest ∈ common,
      (⟨dest, ReadData.resolveTime d a1 dest, ReadData.resolveTime d a2 dest⟩ :
        ReadData.FlightRow) ∈ ReadData.get_flight_times_df d a1 a2 common) ∧
    (∀ code dest info, dictGet d code = some info → info.truthy = true →
        (∀ p ∈ info.routes.getD [], ¬ p.iata = some dest) →
        ReadData.resolveTime d code dest = none) ∧
    (∀ rows, ReadData.common_destinations_df d a1 a2 common = some rows →
        ∀ row ∈ rows, row.time_diff.isSome = (row.time1.isSome && row.time2.isSome)) := by
  refine ⟨?_, ?_, ?_⟩
  · intro dest hdest
    exact List.mem_map.mpr ⟨dest, hdest, rfl⟩
  · intro code dest info hinfo htru hno
    have hres : ReadData.resolveTime d code dest =
        ReadData.firstMatchTime (info.routes.getD []) dest := by
      simp [ReadData.resolveTime, hinfo, htru]
    rw [hres]
    exact firstMatchTime_of_no_match _ dest hno
  · intro rows hrows row hrow
    rcases Option.map_eq_some'.mp hrows with ⟨rows0, _, hadd⟩
    subst hadd
    rw [time_diff_of_mem_addTimeDiff _ row hrow]
    exact timeDiff_isSome _ _

/-- C4 witness: on the ORD indices, the joiner row for ORD appears with an
absent BOS duration; SEA resolves no duration for LAX; and in the merged
output (metadata table nonempty, so the merge succeeds) the ORD row has an
absent difference because one duration is absent. -/
theorem C4_witness :
    ((⟨("ORD"), ReadData.resolveTime seaOrdData ("SEA") ("ORD"),
        ReadData.resolveTime seaOrdData ("BOS") ("ORD")⟩ : ReadData.FlightRow) ∈
      ReadData.get_flight_times_df seaOrdData ("SEA") ("BOS") [("ORD")]) ∧
    ReadData.resolveTime seaOrdData ("SEA") ("LAX") = none ∧
    ((⟨("ORD"), some 50, none, none, none, none⟩ : ReadData.MergedRow).time_diff.isSome =
      ((⟨("ORD"), some 50, none, none, none, none⟩ : ReadData.MergedRow).time1.isSome &&
       (⟨("ORD"), some 50, none, none, none, none⟩ : ReadData.MergedRow).time2.isSome)) :=
  ⟨(C4_join_missing_durations seaOrdData ("SEA") ("BOS") [("ORD")]).1 ("ORD") (by decide),
   (C4_join_missing_durations seaOrdData ("SEA") ("BOS") [("ORD")]).2.1 ("SEA") ("LAX")
     seaOrdInfo (by decide) (by decide) (by decide),
   (C4_join_missing_durations seaOrdMeta ("SEA") ("BOS") [("ORD")]).2.2
     [⟨("ORD"), some 50, none, none, none, none⟩] (by rfl)
     ⟨("ORD"), some 50, none, none, none, none⟩ (by decide)⟩

/-- C5 counterexample: a response with the non-2xx status 300 and a
well-formed payload is not rejected by `raise_for_status` (which raises
only for 400..599, as the code's own comment states), so the fetch returns
success rather than a failure — refuting the claim that any non-2xx status
yields a FetchFailure. -/
theorem C5_counterexample :
    ReadData.read_airport_data_from_url parseEmptyObject
      (ReadData.HttpResult.ok ⟨300, "\x7b\x7d"⟩) = ReadData.FetchResult.success [] := by
  rfl

/-- C5 amended: any network error, any HTTP status in 400..599, or a
malformed payload causes the fetch to return a failure value carrying a
human-readable cause (a parse cause for malformed payloads) rather than
raising; statuses outside 400..599 pass the status check. -/
theorem C5_fetch_failure_amended (parseJson : String → Except String AirportData) :
    (∀ msg, ReadData.read_airport_data_from_url parseJson (ReadData.HttpResult.error msg) =
        ReadData.FetchResult.failure ("Error fetching data: " ++ msg)) ∧
    (∀ resp : ReadData.HttpResponse, 400 ≤ resp.status → resp.status < 600 →
        ReadData.read_airport_data_from_url parseJson (ReadData.HttpResult.ok resp) =
          ReadData.FetchResult.failure
            ("Error fetching data: " ++ ("HTTP Error " ++ toString resp.status))) ∧
    (∀ (resp : ReadData.HttpResponse) (e : String),
        ¬ (400 ≤ resp.status ∧ resp.status < 600) →
        parseJson resp.body = Except.error e →
        ReadData.read_airport_data_from_url parseJson (ReadData.HttpResult.ok resp) =
          ReadData.FetchResult.failure ("Error: Invalid JSON format in the data: " ++ e)) := by
  refine ⟨?_, ?_, ?_⟩
  · intro msg
    rfl
  · intro resp h4 h6
    simp [ReadData.read_airport_data_from_url, ReadData.raise_for_status, h4, h6]
  · intro resp e hnot hparse
    simp [ReadData.read_airport_data_from_url, ReadData.raise_for_status, hnot, hparse]

/-- C5 witness: a transport error, a 404 response, and a 200 response with
an unparseable body each produce the corresponding failure cause. -/
theorem C5_witness :
    ReadData.read_airport_data_from_url parseEmptyObject
        (ReadData.HttpResult.error ("timed out")) =
      ReadData.FetchResult.failure ("Error fetching data: " ++ "timed out") ∧
    ReadData.read_airport_data_from_url parseEmptyObject
        (ReadData.HttpResult.ok ⟨404, "not found"⟩) =
      ReadData.FetchResult.failure
        ("Error fetching data: " ++ ("HTTP Error " ++ toString (404 : Nat))) ∧
    ReadData.read_airport_data_from_url parseEmptyObject
        (ReadData.HttpResult.ok ⟨200, "oops"⟩) =
      ReadData.FetchResult.failure
        ("Error: Invalid JSON format in the data: " ++ "Expecting value") :=
  ⟨(C5_fetch_failure_amended parseEmptyObject).1 ("timed out"),
   (C5_fetch_failure_amended parseEmptyObject).2.1 ⟨404, "not found"⟩ (by decide) (by decide),
   (C5_fetch_failure_amended parseEmptyObject).2.2 ⟨200, "oops"⟩ ("Expecting value")
     (by decide) (by rfl)⟩

/-- C6: the flights.py query aborts with the single top-level failure value
(None) exactly when either origin's destination retrieval failed; no
partial result is returned. -/
theorem C6_abort_on_fetch_failure (d1 d2 : Option (Finset String)) :
    Flights.find_common_destinations d1 d2 = none ↔ d1 = none ∨ d2 = none := by
  cases d1 <;> cases d2 <;> simp [Flights.find_common_destinations]

/-- C6 witness: a failed retrieval for the first airport aborts the query
even though the second airport's set is available. -/
theorem C6_witness :
    Flights.find_common_destinations (none) (some ∅) = none :=
  (C6_abort_on_fetch_failure (none) (some ∅)).mpr (Or.inl rfl)

/-- C7 counterexample: on an index whose records carry no display
metadata, ORD is a common destination and is (vacuously) absent from the
empty metadata mapping, yet the query fails at the merge step (modelled
`none`: `pd.DataFrame([])` has no `iata` column, so read_data.py:154
raises KeyError) instead of producing a row with absent display fields —
refuting the claim that such a destination never fails the query. -/
theorem C7_counterexample :
    ReadData.find_common_destinations bareIndex ("SEA") ("BOS") = {("ORD")} ∧
    ReadData.extract_airport_data bareIndex = [] ∧
    ReadData.common_destinations_df bareIndex ("SEA") ("BOS") [("ORD")] = none := by
  exact ⟨by decide, rfl, rfl⟩

/-- C7 amended: every row of the extracted metadata comes from a
dictionary entry whose `iata`, `name` and `display_name` are all present
and nonempty (so an entry missing a required display field contributes
nothing); and provided the metadata mapping is nonempty (otherwise the
merge step itself fails the query), a common destination matched by no
metadata row still yields a merged row with its display fields absent and
its durations intact, rather than failing. -/
theorem C7_metadata_skip_and_absent (d : AirportData) (a1 a2 : String) (common : List String) :
    (∀ m ∈ ReadData.extract_airport_data d, ∃ p ∈ d,
        p.2.iata = some m.iata ∧ p.2.name = some m.name ∧
        p.2.display_name = some m.display_name ∧
        m.iata ≠ "" ∧ m.name ≠ "" ∧ m.display_name ≠ "") ∧
    (∀ dest ∈ common, ReadData.extract_airport_data d ≠ [] →
      (∀ m ∈ ReadData.extract_airport_data d, m.iata ≠ dest) →
      ∃ rows, ReadData.common_destinations_df d a1 a2 common = some rows ∧
        ∃ row ∈ rows, row.iata = dest ∧ row.name = none ∧ row.display_name = none ∧
          row.time1 = ReadData.resolveTime d a1 dest ∧
          row.time2 = ReadData.resolveTime d a2 dest) := by
  constructor
  · intro m hm
    rcases List.mem_filterMap.mp hm with ⟨p, hp, hf⟩
    refine ⟨p, hp, ?_⟩
    rcases hi : p.2.iata with _ | i
    · simp [hi] at hf
    · rcases hn : p.2.name with _ | n
      · simp [hi, hn] at hf
      · rcases hdn : p.2.display_name with _ | dn
        · simp [hi, hn, hdn] at hf
        · simp only [hi, hn, hdn] at hf
          by_cases hcond : i ≠ "" ∧ n ≠ "" ∧ dn ≠ ""
          · rw [if_pos hcond] at hf
            injection hf with hm2
            subst hm2
            exact ⟨rfl, rfl, rfl, hcond.1, hcond.2.1, hcond.2.2⟩
          · rw [if_neg hcond] at hf
            exact Option.noConfusion hf
  · intro dest hdest hmeta hnometa
    have hfr : (⟨dest, ReadData.resolveTime d a1 dest, ReadData.resolveTime d a2 dest⟩ :
        ReadData.FlightRow) ∈ ReadData.get_flight_times_df d a1 a2 common :=
      List.mem_map.mpr ⟨dest, hdest, rfl⟩
    have hfilter : (ReadData.extract_airport_data d).filter
        (fun m => m.iata == dest) = [] := by
      rw [List.filter_eq_nil_iff]
      intro m hm
      simpa using hnometa m hm
    have hrow := mem_mergeRows_of_no_meta _ (ReadData.extract_airport_data d) _ hfr hfilter
    have hsome := mergeLeft_eq_some (ReadData.get_flight_times_df d a1 a2 common)
      (ReadData.extract_airport_data d) (List.ne_nil_of_mem hfr) hmeta
    refine ⟨ReadData.addTimeDiff (ReadData.mergeRows
        (ReadData.get_flight_times_df d a1 a2 common) (ReadData.extract_airport_data d)),
      ?_, ?_⟩
    · simp [ReadData.common_destinations_df, hsome]
    · exact ⟨⟨dest, ReadData.resolveTime d a1 dest, ReadData.resolveTime d a2 dest, none, none,
        ReadData.timeDiff (ReadData.resolveTime d a1 dest) (ReadData.resolveTime d a2 dest)⟩,
      mem_addTimeDiff_of_mem _ _ hrow, rfl, rfl, rfl, rfl, rfl⟩

/-- C7 witness: in `metaData2` the complete entry AAA yields a metadata row
traced back to its entry, and on `seaOrdMeta` (nonempty metadata table with
no row for ORD) the merged row for ORD appears with absent display
fields. -/
theorem C7_witness :
    (∃ p ∈ metaData2, p.2.iata = some ("AAA") ∧ p.2.name = some ("Airport A") ∧
        p.2.display_name = some ("A City, A") ∧
        ("AAA") ≠ ("") ∧ ("Airport A") ≠ ("") ∧ ("A City, A") ≠ ("")) ∧
    (∃ rows, ReadData.common_destinations_df seaOrdMeta ("SEA") ("BOS") [("ORD")] = some rows ∧
      ∃ row ∈ rows, row.iata = ("ORD") ∧ row.name = none ∧ row.display_name = none ∧
        row.time1 = ReadData.resolveTime seaOrdMeta ("SEA") ("ORD") ∧
        row.time2 = ReadData.resolveTime seaOrdMeta ("BOS") ("ORD")) :=
  ⟨(C7_metadata_skip_and_absent metaData2 ("SEA") ("BOS") []).1
      ⟨("AAA"), ("Airport A"), ("A City, A")⟩ (by decide),
   (C7_metadata_skip_and_absent seaOrdMeta ("SEA") ("BOS") [("ORD")]).2 ("ORD")
      (by decide) (by decide) (by decide)⟩

/-- C8: on the synthetic index where SEA reaches BOS in 45 and LAX in 120
minutes and BOS reaches SEA in 45 and LAX in 300 minutes (the two records
carrying display metadata, as entries of the deployed dataset do, so the
enrichment merge has a nonempty metadata table and succeeds), the common
set is exactly the singleton LAX; the joiner's row for LAX carries
durations 120 and 300; the line-157 arithmetic on those durations gives
180; and the full pipeline produces exactly that row with absolute
difference 180. -/
theorem C8_round_trip :
    ReadData.find_common_destinations syntheticData ("SEA") ("BOS") = {("LAX")} ∧
    ReadData.get_flight_times_df syntheticData ("SEA") ("BOS") [("LAX")] =
      [⟨("LAX"), some 120, some 300⟩] ∧
    ReadData.timeDiff (some 120) (some 300) = some 180 ∧
    ReadData.common_destinations_df syntheticData ("SEA") ("BOS") [("LAX")] =
      some [⟨("LAX"), some 120, some 300, none, none, some 180⟩] := by
  refine ⟨by decide, rfl, rfl, rfl⟩

/-- C9: the join produces exactly one row per element of the common set, in
its iteration order — no destination is dropped or duplicated, whatever the
duration lookups return. -/
theorem C9_one_row_per_destination (d : AirportData) (a1 a2 : String) (common : List String) :
    (ReadData.get_flight_times_df d a1 a2 common).map ReadData.FlightRow.iata = common := by
  simp only [ReadData.get_flight_times_df, List.map_map]
  exact List.map_id common

/-- C10: the destination-set builder is total over malformed records: an
empty (falsy) record yields the empty set, a record lacking the `routes`
key yields the empty set, and the empty string never appears in a built
destination set (empty-string codes are skipped like missing ones). -/
theorem C10_total_on_malformed (d : AirportData) (code : String) (info : AirportInfo) :
    (dictGet d code = some info → info.truthy = false →
      ReadData.get_airport_destinations d code = ∅) ∧
    (dictGet d code = some info → info.routes = none →
      ReadData.get_airport_destinations d code = ∅) ∧
    ("" ∉ ReadData.get_airport_destinations d code) := by
  refine ⟨?_, ?_, ?_⟩
  · intro h htru
    simp [ReadData.get_airport_destinations, h, htru]
  · intro h hroutes
    rcases htru : info.truthy with _ | _
    · simp [ReadData.get_airport_destinations, h, htru]
    · simp [ReadData.get_airport_destinations, h, htru, hroutes,
        ReadData.collectDestinations]
  · intro hmem
    rcases hd : dictGet d code with _ | info2
    · simp [ReadData.get_airport_destinations, hd] at hmem
    · simp only [ReadData.get_airport_destinations, hd] at hmem
      by_cases htru : info2.truthy = true
      · rw [if_pos htru, mem_collectDestinations] at hmem
        rcases hmem with hmem | ⟨r, hr, hri, hne⟩
        · exact absurd hmem (Finset.not_mem_empty _)
        · exact hne rfl
      · rw [if_neg htru] at hmem
        exact absurd hmem (Finset.not_mem_empty _)

/-- C10 witness: the empty record EMP, the routes-less record NRT and the
record EII with an empty-string destination all yield sets without
failures, and the empty string is not in EII's set. -/
theorem C10_witness :
    (ReadData.get_airport_destinations malformedData ("EMP") = ∅) ∧
    (ReadData.get_airport_destinations malformedData ("NRT") = ∅) ∧
    ("" ∉ ReadData.get_airport_destinations malformedData ("EII")) :=
  ⟨(C10_total_on_malformed malformedData ("EMP") emptyInfo).1 (by decide) (by decide),
   (C10_total_on_malformed malformedData ("NRT") noRoutesInfo).2.1 (by decide) (by decide),
   (C10_total_on_malformed malformedData ("EII") emptyIataInfo).2.2⟩
